import Mathlib

/-!
Verification of the model-loading and scene-lifecycle controller of the
interplanetary-players-preview repository.

The repository contains four variants of the same single-file viewer:
  * src/unnamed/part_000  — while-loop retry loader, no fallback asset;
  * src/unnamed/part_001  — recursive retry loader, fallback asset, display flags;
  * src/unnamed/part_002  — recursive retry loader, fallback asset (no display flags);
  * src/src/script.js     — recursive retry loader, built-in default path fallback.

The embedding below translates the data the controller manipulates (the scene
graph of a loaded model, its disposable GPU resources, the scene slot, the
spinner and toast UI signals) into plain Lean structures, and each controller
function into a function that returns the list of observable events it
performs, in program order.  The semantics of each event on the mutable state
(scene children list, currentModel slot, spinner flag, toast list) is given by
`applyEvent`; `runEvents` folds a whole trace.
-/

/-- A geometry buffer owned by a mesh; `disposed` records whether its
`dispose()` method has been called. -/
structure Geometry where
  gid : Nat
  disposed : Bool
deriving DecidableEq

/-- One own enumerable property of a material object, as seen by the
`for (const key in material)` loops of the two `disposeMaterial` variants.
`isTexture` models the `typeof value === 'object' && 'minFilter' in value`
test (part_000 / script.js); `hasDispose` models the
`typeof value.dispose === 'function'` test (part_001 / part_002);
`disposed` records whether `value.dispose()` has been called. -/
structure MatEntry where
  key : String
  isTexture : Bool
  hasDispose : Bool
  disposed : Bool
deriving DecidableEq

/-- A material of a mesh.  `standard` models
`material instanceof THREE.MeshStandardMaterial`; `map` is the identity of the
`material.map` texture (if any); `entries` are the own enumerable properties
iterated by `for..in` (`Material.prototype.dispose` is a non-enumerable class
method, so the `for..in` loops never see it); `disposed` records whether
`material.dispose()` itself has been called. -/
structure Material where
  standard : Bool
  map : Option Nat
  transparent : Bool
  opacity : Rat
  transmission : Option Rat
  alphaTest : Rat
  metalness : Rat
  roughness : Rat
  wireframe : Bool
  needsUpdate : Bool
  entries : List MatEntry
  disposed : Bool
deriving DecidableEq

/-- One node of a loaded scene graph, as visited by `model.traverse(child => …)`.
Geometry and material are optional, mirroring the `if (child.geometry)` /
`if (child.material)` guards in the sources. -/
structure ChildNode where
  isMesh : Bool
  geometry : Option Geometry
  material : Option Material
  castShadow : Bool
  receiveShadow : Bool
deriving DecidableEq

/-- A loaded model (the `gltf.scene` root object).  `mid` is its object
identity, `pos` its position, and `nodes` the scene-graph nodes enumerated by
`model.traverse` in traversal order (the traversal itself treats every node
independently). -/
structure Model where
  mid : Nat
  pos : Rat × Rat × Rat
  nodes : List ChildNode
deriving DecidableEq

/-- A toast notification: message, severity type, and whether it is a
persistent toast with a dismiss (close-button) control rather than an
auto-dismissing one. -/
structure Toast where
  message : String
  ttype : String
  persistent : Bool
deriving DecidableEq

/-- The observable events a controller run performs, in program order.
`disposePrev m` carries the previous model after the flag mutations of
`disposeModel` (its identity `mid` is unchanged); `loadCall url fb` marks one
invocation of the retrying loader (`fb` tells whether this is the fallback
attempt of the cycle); `install m` is `scene.add(model); currentModel = model`;
`animStart` is the `startAnimationLoop()` call of the startup code. -/
inductive Event where
  | disposePrev (m : Model)
  | spinnerShow
  | spinnerHide
  | loadCall (url : String) (isFallback : Bool)
  | install (m : Model)
  | toast (t : Toast)
  | animStart
deriving DecidableEq

/-- The mutable state of the viewer: the models currently among the scene
children, the `currentModel` slot, the spinner element, and the toasts shown
so far. -/
structure CtrlState where
  scene : List Model
  currentModel : Option Model
  spinner : Bool
  toasts : List Toast
deriving DecidableEq

/-- Semantics of one event on the state.  `scene.remove(object)` removes the
given object from the scene children; since an object occurs in the children
list at most once, this is filtering out its identity. -/
def applyEvent (st : CtrlState) : Event → CtrlState
  | Event.disposePrev m =>
      { st with scene := st.scene.filter (fun x => x.mid != m.mid), currentModel := none }
  | Event.spinnerShow => { st with spinner := true }
  | Event.spinnerHide => { st with spinner := false }
  | Event.loadCall _ _ => st
  | Event.install m => { st with scene := st.scene ++ [m], currentModel := some m }
  | Event.toast t => { st with toasts := st.toasts ++ [t] }
  | Event.animStart => st

/-- Run a whole trace of events from a starting state. -/
def runEvents (st : CtrlState) : List Event → CtrlState
  | [] => st
  | e :: es => runEvents (applyEvent st e) es

/-- All states a run passes through, the starting state included. -/
def statesOf (st : CtrlState) : List Event → List CtrlState
  | [] => [st]
  | e :: es => st :: statesOf (applyEvent st e) es

/-- The loader invocations of a trace, as (url, isFallback) pairs. -/
def loadCallsOf (evs : List Event) : List (String × Bool) :=
  evs.filterMap (fun e => match e with | Event.loadCall u fb => some (u, fb) | _ => none)

/-- The models installed by a trace. -/
def installsOf (evs : List Event) : List Model :=
  evs.filterMap (fun e => match e with | Event.install m => some m | _ => none)

/-- The toasts shown by a trace. -/
def toastsOf (evs : List Event) : List Toast :=
  evs.filterMap (fun e => match e with | Event.toast t => some t | _ => none)

/-- `MAX_RETRIES = 3`, identical in all four variants. -/
def MAX_RETRIES : Nat := 3

/-- `FALLBACK_MODEL` of part_001 / part_002. -/
def FALLBACK_MODEL : String := "/assets/models/not-found-low.glb"

namespace V0

/-- The body of the `while (retryCount < retries)` loop of part_000's
`loadModel`.  `outcomes i` is the result of the (i+1)-th `gltfLoader.loadAsync`
call (`some scene` when it resolves, `none` when it rejects).  `remaining`
is `retries - retryCount`, so the loop guard `retryCount < retries` is
`remaining > 0`.  The result pairs the number of attempts performed with the
outcome (`none` models the final `throw`). -/
def loadModelGo (outcomes : Nat → Option Model) (retryCount : Nat) :
    Nat → Nat × Option Model
  | 0 => (retryCount, none)
  | remaining + 1 =>
    match outcomes retryCount with
    | some scene => (retryCount + 1, some scene)
    | none => loadModelGo outcomes (retryCount + 1) remaining

/-- part_000 lines 120-134: the iterative retry loader. -/
def loadModel (outcomes : Nat → Option Model) (retries : Nat) : Nat × Option Model :=
  loadModelGo outcomes 0 retries

end V0

namespace V2

/-- The inner `attemptLoad(attempt)` of part_002's `loadModel` (lines 99-118;
part_001 lines 120-140 and script.js's `loadModelWithRetry` are identical in
structure).  On failure the source recurses when `attempt < retries - 1`
(JavaScript number arithmetic, so `retries = 0` gives the always-false test
`attempt < -1`); since `attempt` only grows, that test is equivalent to
`retries - 1 - attempt > 0` in truncated Nat subtraction, which the `fuel`
argument carries: `fuel = retries - 1 - attempt`. -/
def attemptLoad (outcomes : Nat → Option Model) (attempt : Nat) :
    Nat → Nat × Option Model
  | 0 =>
    match outcomes attempt with
    | some scene => (attempt + 1, some scene)
    | none => (attempt + 1, none)
  | fuel + 1 =>
    match outcomes attempt with
    | some scene => (attempt + 1, some scene)
    | none => attemptLoad outcomes (attempt + 1) fuel

/-- part_002 lines 99-118: the recursive retry loader, `attemptLoad(0)`. -/
def loadModel (outcomes : Nat → Option Model) (retries : Nat) : Nat × Option Model :=
  attemptLoad outcomes 0 (retries - 1)

end V2


namespace Ctrl

/-- `disposeMaterial` of part_001 (lines 111-118) and part_002 (lines 89-96):
`for (const key in material) if (value && typeof value.dispose === 'function')
value.dispose();` — it disposes every own enumerable property that carries a
`dispose` method, and does not call `material.dispose()` itself. -/
def disposeMaterial (mat : Material) : Material :=
  { mat with
      entries := mat.entries.map
          (fun e => if e.hasDispose then { e with disposed := true } else e) }

/-- The `model.traverse` body of `disposeModel` in part_001 / part_002:
for every mesh node, dispose its geometry (if present) and run
`disposeMaterial` on its material (if present).  The object identity `mid`
is unchanged. -/
def disposeModelFn (m : Model) : Model :=
  { m with nodes := m.nodes.map (fun child =>
      if child.isMesh then
        { child with
          geometry := child.geometry.map (fun g => { g with disposed := true }),
          material := child.material.map Ctrl.disposeMaterial }
      else child) }

/-- `disposeModel` of part_001 (lines 100-109) and part_002 (lines 78-87):
`if (!model) return;` then the traversal, then `scene.remove(model)`.
The result pairs the updated scene children with the (mutated) model object. -/
def disposeModel (model : Option Model) (scene : List Model) :
    List Model × Option Model :=
  match model with
  | none => (scene, none)
  | some m => (scene.filter (fun x => x.mid != m.mid), some (Ctrl.disposeModelFn m))

end Ctrl

namespace Script

/-- `disposeMaterial` of part_000 (lines 64-72) and script.js (lines 72-80):
the `for..in` loop disposes every own enumerable property that is an object
with a `minFilter` field (a texture), and then calls `material.dispose()`. -/
def disposeMaterial (mat : Material) : Material :=
  let mat2 : Material := { mat with
      entries := mat.entries.map
          (fun e => if e.isTexture then { e with disposed := true } else e) }
  { mat2 with disposed := true }

/-- The `model.traverse` body of `disposeModel` in part_000 / script.js. -/
def disposeModelFn (m : Model) : Model :=
  { m with nodes := m.nodes.map (fun child =>
      if child.isMesh then
        { child with
          geometry := child.geometry.map (fun g => { g with disposed := true }),
          material := child.material.map Script.disposeMaterial }
      else child) }

/-- `disposeModel` of part_000 (lines 54-62) and script.js (lines 61-69):
there is no null guard, so `model.traverse` on a null model throws a
TypeError, modelled as `Except.error ()`. -/
def disposeModel (model : Option Model) (scene : List Model) :
    Except Unit (List Model × Model) :=
  match model with
  | none => Except.error ()
  | some m =>
      Except.ok (scene.filter (fun x => x.mid != m.mid), Script.disposeModelFn m)

end Script

/-- `new THREE.MeshStandardMaterial({ map: child.material.map || null,
metalness: 0.3, roughness: 0.7 })` — the replacement material built by the
normalization traversals of part_001 / part_002.  A fresh material has the
library defaults: not transparent, opacity 1, no transmission property,
wireframe off. -/
def newStandardMaterial (map : Option Nat) : Material :=
  { standard := true, map := map, transparent := false, opacity := 1,
    transmission := none, alphaTest := 0, metalness := 3/10, roughness := 7/10,
    wireframe := false, needsUpdate := false, entries := [], disposed := false }

/-- Effectful map over the scene-graph nodes: `model.traverse` with a callback
that may throw (the exception propagates out of the traversal into the
enclosing try block). -/
def mapExcept (f : ChildNode → Except Unit ChildNode) :
    List ChildNode → Except Unit (List ChildNode)
  | [] => Except.ok []
  | c :: cs =>
    match f c with
    | Except.error e => Except.error e
    | Except.ok c2 =>
      match mapExcept f cs with
      | Except.error e => Except.error e
      | Except.ok cs2 => Except.ok (c2 :: cs2)

namespace V2

/-- The traverse callback of part_002's `loadAndDisplayModel` (lines 137-149):
every mesh whose material is not a `MeshStandardMaterial` gets a fresh one
(reading `child.material.map`, which throws on a missing material, hence the
error case), and shadows are switched off. -/
def normalizeChild (child : ChildNode) : Except Unit ChildNode :=
  if child.isMesh then
    match child.material with
    | some mat =>
      let mat2 := if mat.standard then mat else newStandardMaterial mat.map
      Except.ok { child with material := some mat2,
                             castShadow := false, receiveShadow := false }
    | none => Except.error ()
  else Except.ok child

/-- part_002 lines 137-150: the normalization traversal followed by
`model.position.set(0, 0, 0)`. -/
def normalizeModel (m : Model) : Except Unit Model :=
  match mapExcept V2.normalizeChild m.nodes with
  | Except.error e => Except.error e
  | Except.ok nodes2 => Except.ok { m with nodes := nodes2, pos := (0, 0, 0) }

end V2

/-- part_001 lines 20: the force-opaque display flag,
`['1','true','opaque'].includes((getUrlParameter('alphaMode') || '').toLowerCase())`
(named FORCE_OPAQUE in the source). -/
def forceSolidFlag (alphaMode : Option String) : Bool :=
  ["1", "true", "opaque"].contains (alphaMode.getD "").toLower

/-- part_001 lines 23: the force-wireframe display flag,
`['1','true','on'].includes((getUrlParameter('wireframe') || '').toLowerCase())`. -/
def FORCE_WIREFRAME (wireframe : Option String) : Bool :=
  ["1", "true", "on"].contains (wireframe.getD "").toLower

namespace V1

/-- The FORCE_OPAQUE block of part_001 (lines 168-178): when the flag is on
and the material is transparent or has positive transmission, force it
non-transparent (the `if ('transmission' in m)` guard is the `Option.map`). -/
def forceSolidStep (fo : Bool) (m : Material) : Material :=
  if fo && (m.transparent ||
      (match m.transmission with
       | some t => decide (0 < t)
       | none => false)) then
    { m with transparent := false, opacity := 1,
             transmission := m.transmission.map (fun _ => 0),
             alphaTest := 0, needsUpdate := true }
  else m

/-- The FORCE_WIREFRAME block of part_001 (lines 179-183). -/
def wireframeStep (fw : Bool) (m : Material) : Material :=
  if fw then { m with wireframe := true, needsUpdate := true } else m

/-- The traverse callback of part_001's `loadAndDisplayModel` (lines 159-186):
the part_002 normalization, then the FORCE_OPAQUE block, then the
FORCE_WIREFRAME block. -/
def normalizeChild (fo fw : Bool) (child : ChildNode) : Except Unit ChildNode :=
  if child.isMesh then
    match child.material with
    | some mat =>
      let m1 := if mat.standard then mat else newStandardMaterial mat.map
      let m3 := V1.wireframeStep fw (V1.forceSolidStep fo m1)
      Except.ok { child with material := some m3,
                             castShadow := false, receiveShadow := false }
    | none => Except.error ()
  else Except.ok child

/-- part_001 lines 159-188: the normalization traversal with the display
flags, followed by `model.position.set(0, 0, 0)`. -/
def normalizeModel (fo fw : Bool) (m : Model) : Except Unit Model :=
  match mapExcept (V1.normalizeChild fo fw) m.nodes with
  | Except.error e => Except.error e
  | Except.ok nodes2 => Except.ok { m with nodes := nodes2, pos := (0, 0, 0) }

end V1

namespace Ctrl

/-- One activation of `loadAndDisplayModel(url, isFallback)` of part_001
(lines 143-214) / part_002 (lines 121-176); the two differ only in the
traverse callback, passed here as `normalize`.  `env url i` is the outcome of
the (i+1)-th raw load attempt for `url` inside one `loadModel(url)` call.
`fallbackCall` stands for the `await loadAndDisplayModel(FALLBACK_MODEL, true)`
in the catch branch, applied to the state at that point; the top-level wrapper
`Ctrl.loadAndDisplayModel` ties the knot (the recursion can only be one level
deep, because the recursive call passes `isFallback = true`).

Statement order of the source: dispose the current model if present, show the
spinner (primary only), call the retrying loader; on success run the traverse
normalization (whose exception lands in the same catch), position at origin,
`scene.add`, set `currentModel`, hide the spinner; on failure hide the spinner
and, when not already the fallback, re-enter with the fallback model. -/
def ladmBody (normalize : Model → Except Unit Model)
    (env : String → Nat → Option Model) (url : String) (isFallback : Bool)
    (st : CtrlState) (fallbackCall : CtrlState → List Event) : List Event :=
  let pre : List Event :=
    (match st.currentModel with
     | some m => [Event.disposePrev (Ctrl.disposeModelFn m)]
     | none => []) ++
    (if isFallback then [] else [Event.spinnerShow]) ++
    [Event.loadCall url isFallback]
  match (V2.loadModel (env url) MAX_RETRIES).2 with
  | some m =>
    match normalize m with
    | Except.ok m2 => pre ++ [Event.install m2, Event.spinnerHide]
    | Except.error _ =>
      pre ++ [Event.spinnerHide] ++
      (if isFallback then []
       else fallbackCall (runEvents st (pre ++ [Event.spinnerHide])))
  | none =>
    pre ++ [Event.spinnerHide] ++
    (if isFallback then []
     else fallbackCall (runEvents st (pre ++ [Event.spinnerHide])))

/-- `loadAndDisplayModel(url, isFallback)` of part_001 / part_002: the body,
with the catch-branch re-entry being one body activation with
`isFallback = true` (which never re-enters again). -/
def loadAndDisplayModel (normalize : Model → Except Unit Model)
    (env : String → Nat → Option Model) (url : String) (isFallback : Bool)
    (st : CtrlState) : List Event :=
  Ctrl.ladmBody normalize env url isFallback st
    (fun st2 => Ctrl.ladmBody normalize env FALLBACK_MODEL true st2 (fun _ => []))

/-- The `init` function of part_001 (lines 237-251) / part_002 (lines 199-213):
`if (!modelParam)` (the parameter is null or empty) load the fallback model
directly with the fallback flag set, otherwise load the requested model;
then start the animation loop. -/
def init (normalize : Model → Except Unit Model) (modelParam : Option String)
    (env : String → Nat → Option Model) (st : CtrlState) : List Event :=
  (if (modelParam.getD "") = "" then
     Ctrl.loadAndDisplayModel normalize env FALLBACK_MODEL true st
   else
     Ctrl.loadAndDisplayModel normalize env (modelParam.getD "") false st)
  ++ [Event.animStart]

end Ctrl

namespace Script

/-- `import.meta.env.BASE_URL` under the deployment's vite config
(`base: '/interplanetary-players-preview/'`). -/
def BASE_URL : String := "/interplanetary-players-preview/"

/-- The built-in default / fallback path of script.js,
`${import.meta.env.BASE_URL}models/mw_hi.glb`. -/
def defaultModelPath : String := BASE_URL ++ "models/mw_hi.glb"

/-- script.js lines 83-102: `loadModelWithRetry`, identical in structure to
part_002's recursive `loadModel`. -/
def loadModelWithRetry (outcomes : Nat → Option Model) (retries : Nat) :
    Nat × Option Model :=
  V2.attemptLoad outcomes 0 (retries - 1)

/-- script.js line 14: `let modelPath = getUrlParameter('object') || default`
(a null or empty parameter is falsy). -/
def modelPathInit (objectParam : Option String) : String :=
  if (objectParam.getD "") = "" then Script.defaultModelPath
  else objectParam.getD ""

/-- script.js lines 154-192: `loadAndDisplayModel()`.  Dispose the current
model if present, show the spinner, try the primary load of `modelPath`; on
success install the loaded model unchanged (no normalization, no position
reset) and show a success toast; on failure re-assign `modelPath` to the
built-in default and load it (the fallback substitution of this variant); if
that also fails, the rejection reaches the outer catch, which hides the
spinner and shows the persistent critical-error toast. -/
def loadAndDisplayModel (env : String → Nat → Option Model) (modelPath : String)
    (st : CtrlState) : List Event :=
  let pre : List Event :=
    (match st.currentModel with
     | some m => [Event.disposePrev (Script.disposeModelFn m)]
     | none => []) ++
    [Event.spinnerShow, Event.loadCall modelPath false]
  match (Script.loadModelWithRetry (env modelPath) MAX_RETRIES).2 with
  | some m =>
    pre ++ [Event.install m, Event.spinnerHide,
            Event.toast { message := "Model loaded successfully.",
                          ttype := "success", persistent := true }]
  | none =>
    let pre2 := pre ++ [Event.loadCall Script.defaultModelPath true]
    match (Script.loadModelWithRetry (env Script.defaultModelPath) MAX_RETRIES).2 with
    | some fm =>
      pre2 ++ [Event.install fm, Event.spinnerHide,
               Event.toast { message := "Unable to load the requested model. A temporary model has been loaded instead.",
                             ttype := "error", persistent := true }]
    | none =>
      pre2 ++ [Event.spinnerHide,
               Event.toast { message := "Critical error loading model.",
                             ttype := "error", persistent := true }]

/-- script.js line 237: `loadAndDisplayModel().then(startAnimationLoop)`,
with `modelPath` initialised from the `object` URL parameter (line 14). -/
def init (objectParam : Option String) (env : String → Nat → Option Model)
    (st : CtrlState) : List Event :=
  Script.loadAndDisplayModel env (Script.modelPathInit objectParam) st
    ++ [Event.animStart]

end Script

namespace V0

/-- part_000 lines 137-176: `loadAndDisplayModel()`.  When the `model` URL
parameter is absent (null or empty, both falsy), show a persistent error toast
and return without any load.  Otherwise dispose the current model if present,
show the spinner and an info toast, and load the requested model with the
while-loop loader (`decodeURIComponent` is modelled as the identity on the
already-decoded path); on success install it unchanged and show a success
toast, on failure show a persistent error toast.  There is no fallback asset
in this variant. -/
def loadAndDisplayModel (env : String → Nat → Option Model)
    (modelPath : Option String) (st : CtrlState) : List Event :=
  if (modelPath.getD "") = "" then
    [Event.toast { message := "No model URL provided. Please specify a model using the model URL parameter.",
                   ttype := "error", persistent := true }]
  else
    let url := modelPath.getD ""
    let pre : List Event :=
      (match st.currentModel with
       | some m => [Event.disposePrev (Script.disposeModelFn m)]
       | none => []) ++
      [Event.spinnerShow,
       Event.toast { message := "Loading model, please wait...",
                     ttype := "info", persistent := false },
       Event.loadCall url false]
    match (V0.loadModel (env url) MAX_RETRIES).2 with
    | some m =>
      pre ++ [Event.install m, Event.spinnerHide,
              Event.toast { message := "Model loaded successfully.",
                            ttype := "success", persistent := false }]
    | none =>
      pre ++ [Event.spinnerHide,
              Event.toast { message := "Unable to load the requested model. Please check the URL and try again.",
                            ttype := "error", persistent := true }]

/-- part_000 line 234: `loadAndDisplayModel().then(startAnimationLoop)`,
with the `model` URL parameter as input. -/
def init (modelParam : Option String) (env : String → Nat → Option Model)
    (st : CtrlState) : List Event :=
  V0.loadAndDisplayModel env modelParam st ++ [Event.animStart]

end V0

section LoaderLemmas

variable (outcomes : Nat → Option Model)

/-- If every attempt from `rc` up to the loop bound fails, the while-loop
loader exits after performing all of them. -/
lemma loadModelGo_all_fail : ∀ (rem rc : Nat),
    (∀ i, rc ≤ i → i < rc + rem → outcomes i = none) →
    V0.loadModelGo outcomes rc rem = (rc + rem, none) := by
  intro rem
  induction rem with
  | zero => intro rc _; simp [V0.loadModelGo]
  | succ n ih =>
    intro rc h
    have h0 : outcomes rc = none := h rc (Nat.le_refl rc) (by omega)
    have h2 := ih (rc + 1) (fun i hi hi2 => h i (by omega) (by omega))
    simp [V0.loadModelGo, h0, h2]
    omega

/-- If the first success within the loop bound is at index `k`, the while-loop
loader returns it after `k + 1` attempts. -/
lemma loadModelGo_first_success : ∀ (rem rc k : Nat) (s : Model),
    rc ≤ k → k < rc + rem →
    (∀ i, rc ≤ i → i < k → outcomes i = none) → outcomes k = some s →
    V0.loadModelGo outcomes rc rem = (k + 1, some s) := by
  intro rem
  induction rem with
  | zero => intro rc k s h1 h2 _ _; omega
  | succ n ih =>
    intro rc k s h1 h2 h3 h4
    rcases Nat.eq_or_lt_of_le h1 with heq | hlt
    · subst heq
      simp [V0.loadModelGo, h4]
    · have h0 : outcomes rc = none := h3 rc (Nat.le_refl rc) hlt
      have h5 := ih (rc + 1) k s (by omega) (by omega)
        (fun i hi hi2 => h3 i (by omega) hi2) h4
      simp [V0.loadModelGo, h0, h5]

/-- If every attempt within the budget fails, the recursive loader rejects
after performing all of them. -/
lemma attemptLoad_all_fail : ∀ (fuel attempt : Nat),
    (∀ i, attempt ≤ i → i ≤ attempt + fuel → outcomes i = none) →
    V2.attemptLoad outcomes attempt fuel = (attempt + fuel + 1, none) := by
  intro fuel
  induction fuel with
  | zero =>
    intro attempt h
    have h0 : outcomes attempt = none := h attempt (Nat.le_refl _) (by omega)
    simp [V2.attemptLoad, h0]
  | succ n ih =>
    intro attempt h
    have h0 : outcomes attempt = none := h attempt (Nat.le_refl _) (by omega)
    have h2 := ih (attempt + 1) (fun i hi hi2 => h i (by omega) (by omega))
    simp [V2.attemptLoad, h0, h2]
    omega

/-- If the first success within the budget is at index `k`, the recursive
loader resolves with it after `k + 1` attempts. -/
lemma attemptLoad_first_success : ∀ (fuel attempt k : Nat) (s : Model),
    attempt ≤ k → k ≤ attempt + fuel →
    (∀ i, attempt ≤ i → i < k → outcomes i = none) → outcomes k = some s →
    V2.attemptLoad outcomes attempt fuel = (k + 1, some s) := by
  intro fuel
  induction fuel with
  | zero =>
    intro attempt k s h1 h2 _ h4
    have : attempt = k := by omega
    subst this
    simp [V2.attemptLoad, h4]
  | succ n ih =>
    intro attempt k s h1 h2 h3 h4
    rcases Nat.eq_or_lt_of_le h1 with heq | hlt
    · subst heq
      simp [V2.attemptLoad, h4]
    · have h0 : outcomes attempt = none := h3 attempt (Nat.le_refl _) hlt
      have h5 := ih (attempt + 1) k s (by omega) (by omega)
        (fun i hi hi2 => h3 i (by omega) hi2) h4
      simp [V2.attemptLoad, h0, h5]

/-- The recursive loader with fuel `n` behaves like the while loop with
`n + 1` remaining iterations. -/
lemma attemptLoad_eq_loadModelGo : ∀ (fuel attempt : Nat),
    V2.attemptLoad outcomes attempt fuel
      = V0.loadModelGo outcomes attempt (fuel + 1) := by
  intro fuel
  induction fuel with
  | zero =>
    intro attempt
    cases h : outcomes attempt <;> simp [V2.attemptLoad, V0.loadModelGo, h]
  | succ n ih =>
    intro attempt
    cases h : outcomes attempt <;> simp [V2.attemptLoad, V0.loadModelGo, h, ih]

end LoaderLemmas

/-- C1.  For every retry budget `N ≥ 1` and every sequence of per-attempt
outcomes, both retry loaders (`loadModel` of part_000, the while-loop variant,
and `loadModel` of part_002, the recursive variant) perform exactly `k`
attempts and resolve with the loaded scene when the first success is at
attempt `k ≤ N` (attempts numbered from 1), and when every attempt fails they
fail only after performing exactly `N` attempts — never fewer, never more. -/
theorem claim1_retry_loader (outcomes : Nat → Option Model) (N k : Nat) (s : Model) :
    (1 ≤ k → k ≤ N → (∀ i, i < k - 1 → outcomes i = none) →
      outcomes (k - 1) = some s →
      V0.loadModel outcomes N = (k, some s) ∧
      V2.loadModel outcomes N = (k, some s)) ∧
    (1 ≤ N → (∀ i, i < N → outcomes i = none) →
      V0.loadModel outcomes N = (N, none) ∧
      V2.loadModel outcomes N = (N, none)) := by
  constructor
  · intro hk1 hkN hfail hsucc
    have hk : k - 1 + 1 = k := by omega
    constructor
    · have h := loadModelGo_first_success outcomes N 0 (k - 1) s (by omega) (by omega)
        (fun i _ hi => hfail i hi) hsucc
      rw [V0.loadModel, h, hk]
    · have h := attemptLoad_first_success outcomes (N - 1) 0 (k - 1) s (by omega) (by omega)
        (fun i _ hi => hfail i hi) hsucc
      rw [V2.loadModel, h, hk]
  · intro hN hfail
    constructor
    · have h := loadModelGo_all_fail outcomes N 0 (fun i _ hi => hfail i (by omega))
      rw [V0.loadModel, h]
      simp
    · have h := attemptLoad_all_fail outcomes (N - 1) 0 (fun i _ hi => hfail i (by omega))
      rw [V2.loadModel, h]
      have : 0 + (N - 1) + 1 = N := by omega
      rw [this]

/-- Witness for C1: with a budget of 3 and outcomes that fail once then
succeed, both loaders resolve after exactly 2 attempts; with outcomes that
always fail, both fail after exactly 3 attempts. -/
theorem claim1_witness :
    (V0.loadModel (fun i => if i = 1 then some { mid := 7, pos := (0, 0, 0), nodes := [] } else none) 3
        = (2, some { mid := 7, pos := (0, 0, 0), nodes := [] }) ∧
      V2.loadModel (fun i => if i = 1 then some { mid := 7, pos := (0, 0, 0), nodes := [] } else none) 3
        = (2, some { mid := 7, pos := (0, 0, 0), nodes := [] })) ∧
    (V0.loadModel (fun _ => none) 3 = (3, none) ∧
      V2.loadModel (fun _ => none) 3 = (3, none)) :=
  ⟨(claim1_retry_loader
      (fun i => if i = 1 then some { mid := 7, pos := (0, 0, 0), nodes := [] } else none)
      3 2 { mid := 7, pos := (0, 0, 0), nodes := [] }).1
      (by decide) (by decide) (by decide) (by decide),
   (claim1_retry_loader (fun _ => none) 3 2
      { mid := 7, pos := (0, 0, 0), nodes := [] }).2
      (by decide) (fun i _ => rfl)⟩

/-- C10.  The iterative while-loop loader (part_000) and the recursive
callback loader (part_002) are observationally equivalent for every retry
budget `N ≥ 1`: on the same sequence of per-attempt outcomes they perform the
same number of attempts and return the same result.  For `N = 0` they diverge:
the while-loop variant fails after zero attempts, while the recursive variant
still performs one attempt (returning that attempt's outcome). -/
theorem claim10_loader_equiv (outcomes : Nat → Option Model) (N : Nat) :
    (1 ≤ N → V0.loadModel outcomes N = V2.loadModel outcomes N) ∧
    V0.loadModel outcomes 0 = (0, none) ∧
    V2.loadModel outcomes 0 = (1, outcomes 0) := by
  refine ⟨fun hN => ?_, by simp [V0.loadModel, V0.loadModelGo], ?_⟩
  · rw [V0.loadModel, V2.loadModel, attemptLoad_eq_loadModelGo]
    have : N - 1 + 1 = N := by omega
    rw [this]
  · cases h : outcomes 0 <;> simp [V2.loadModel, V2.attemptLoad, h]

/-- Witness for C10: at budget 2 the two loaders agree on an
always-failing outcome sequence. -/
theorem claim10_witness :
    V0.loadModel (fun _ => none) 2 = V2.loadModel (fun _ => none) 2 :=
  (claim10_loader_equiv (fun _ => none) 2).1 (by decide)

/-- The geometry buffer of a node (if any) has been released. -/
def geomReleased (c : ChildNode) : Bool :=
  match c.geometry with
  | some g => g.disposed
  | none => true

/-- Every disposable resource referenced by the material (every own enumerable
property with a `dispose` method) has been released — the resources the
part_001 / part_002 `disposeMaterial` targets. -/
def entriesReleasedCtrl (mat : Material) : Bool :=
  mat.entries.all (fun e => !e.hasDispose || e.disposed)

/-- Every texture referenced by the material has been released — the
resources the part_000 / script.js `disposeMaterial` targets. -/
def entriesReleasedScript (mat : Material) : Bool :=
  mat.entries.all (fun e => !e.isTexture || e.disposed)

/-- A mesh node has its geometry and its material's disposable resources
released (part_001 / part_002 reading). -/
def meshReleasedCtrl (c : ChildNode) : Bool :=
  !c.isMesh ||
    (geomReleased c &&
      (match c.material with
       | some mat => entriesReleasedCtrl mat
       | none => true))

/-- A mesh node has its geometry and its material's textures released and the
material object itself released (part_000 / script.js reading). -/
def meshReleasedScript (c : ChildNode) : Bool :=
  !c.isMesh ||
    (geomReleased c &&
      (match c.material with
       | some mat => entriesReleasedScript mat && mat.disposed
       | none => true))

/-- All renderable nodes of the model are fully released (part_001 / part_002
reading). -/
def fullyReleasedCtrl (m : Model) : Bool :=
  m.nodes.all meshReleasedCtrl

/-- All renderable nodes of the model are fully released, materials included
(part_000 / script.js reading). -/
def fullyReleasedScript (m : Model) : Bool :=
  m.nodes.all meshReleasedScript

lemma entriesReleasedCtrl_disposeMaterial (mat : Material) :
    entriesReleasedCtrl (Ctrl.disposeMaterial mat) = true := by
  simp only [entriesReleasedCtrl, Ctrl.disposeMaterial, List.all_eq_true, List.mem_map]
  rintro e ⟨e0, he0, rfl⟩
  by_cases hd : e0.hasDispose <;> simp [hd]

lemma entriesReleasedScript_disposeMaterial (mat : Material) :
    entriesReleasedScript (Script.disposeMaterial mat) = true := by
  simp only [entriesReleasedScript, Script.disposeMaterial, List.all_eq_true, List.mem_map]
  rintro e ⟨e0, he0, rfl⟩
  by_cases hd : e0.isTexture <;> simp [hd]

lemma script_disposeMaterial_disposed (mat : Material) :
    (Script.disposeMaterial mat).disposed = true := rfl

lemma fullyReleasedCtrl_disposeModelFn (m : Model) :
    fullyReleasedCtrl (Ctrl.disposeModelFn m) = true := by
  simp only [fullyReleasedCtrl, Ctrl.disposeModelFn, List.all_eq_true, List.mem_map]
  rintro c ⟨c0, hc0, rfl⟩
  by_cases hm : c0.isMesh
  · simp only [hm, if_true, meshReleasedCtrl, geomReleased]
    cases hg : c0.geometry <;> cases hmat : c0.material <;>
      simp [hm, hg, hmat, entriesReleasedCtrl_disposeMaterial]
  · simp [hm, meshReleasedCtrl]

lemma fullyReleasedScript_disposeModelFn (m : Model) :
    fullyReleasedScript (Script.disposeModelFn m) = true := by
  simp only [fullyReleasedScript, Script.disposeModelFn, List.all_eq_true, List.mem_map]
  rintro c ⟨c0, hc0, rfl⟩
  by_cases hm : c0.isMesh
  · simp only [hm, if_true, meshReleasedScript, geomReleased]
    cases hg : c0.geometry <;> cases hmat : c0.material <;>
      simp [hm, hg, hmat, entriesReleasedScript_disposeMaterial,
            script_disposeMaterial_disposed]
  · simp [hm, meshReleasedScript]

/-- The part_001 / part_002 disposal never touches the `disposed` flag of the
material object itself. -/
lemma ctrl_dispose_keeps_material_flag (m : Model) :
    (Ctrl.disposeModelFn m).nodes.map (fun c => c.material.map Material.disposed)
      = m.nodes.map (fun c => c.material.map Material.disposed) := by
  simp only [Ctrl.disposeModelFn, List.map_map]
  apply List.map_congr_left
  intro c _
  by_cases hm : c.isMesh
  · cases hmat : c.material <;> simp [Function.comp, hm, hmat, Ctrl.disposeMaterial]
  · simp [Function.comp, hm]

lemma ctrl_disposeModelFn_mid (m : Model) : (Ctrl.disposeModelFn m).mid = m.mid := rfl

lemma script_disposeModelFn_mid (m : Model) : (Script.disposeModelFn m).mid = m.mid := rfl

lemma ctrl_disposeMaterial_idem (mat : Material) :
    Ctrl.disposeMaterial (Ctrl.disposeMaterial mat) = Ctrl.disposeMaterial mat := by
  simp only [Ctrl.disposeMaterial, List.map_map]
  congr 1
  apply List.map_congr_left
  intro e _
  by_cases hd : e.hasDispose <;> simp [Function.comp, hd]

lemma script_disposeMaterial_idem (mat : Material) :
    Script.disposeMaterial (Script.disposeMaterial mat) = Script.disposeMaterial mat := by
  simp only [Script.disposeMaterial, List.map_map]
  congr 1
  apply List.map_congr_left
  intro e _
  by_cases hd : e.isTexture <;> simp [Function.comp, hd]

lemma ctrl_disposeModelFn_idem (m : Model) :
    Ctrl.disposeModelFn (Ctrl.disposeModelFn m) = Ctrl.disposeModelFn m := by
  simp only [Ctrl.disposeModelFn, List.map_map]
  congr 1
  apply List.map_congr_left
  intro c _
  by_cases hm : c.isMesh
  · cases hg : c.geometry <;> cases hmat : c.material <;>
      simp [Function.comp, hm, hg, hmat, ctrl_disposeMaterial_idem]
  · simp [Function.comp, hm]

lemma script_disposeModelFn_idem (m : Model) :
    Script.disposeModelFn (Script.disposeModelFn m) = Script.disposeModelFn m := by
  simp only [Script.disposeModelFn, List.map_map]
  congr 1
  apply List.map_congr_left
  intro c _
  by_cases hm : c.isMesh
  · cases hg : c.geometry <;> cases hmat : c.material <;>
      simp [Function.comp, hm, hg, hmat, script_disposeMaterial_idem]
  · simp [Function.comp, hm]

lemma filter_idem (p : Model → Bool) (l : List Model) :
    (l.filter p).filter p = l.filter p := by
  induction l with
  | nil => rfl
  | cons a l ih =>
    by_cases h : p a <;> simp [List.filter_cons, h, ih]

/-- A concrete material holding one disposable texture entry, with nothing
released yet. -/
def cexMaterial5 : Material :=
  { standard := true, map := some 0, transparent := false, opacity := 1,
    transmission := none, alphaTest := 0, metalness := 3/10, roughness := 7/10,
    wireframe := false, needsUpdate := false,
    entries := [{ key := "map", isTexture := true, hasDispose := true, disposed := false }],
    disposed := false }

/-- A concrete model with a single mesh carrying `cexMaterial5`. -/
def cexModel5 : Model :=
  { mid := 1, pos := (0, 0, 0),
    nodes := [{ isMesh := true, geometry := some { gid := 0, disposed := false },
                material := some cexMaterial5,
                castShadow := false, receiveShadow := false }] }

/-- Counterexample for C5.  The claim states that `disposeModel` releases
"the material object itself"; in the part_001 / part_002 `disposeMaterial`
(the `disposeModel` cited at part_002 lines 78-96) the `for..in` loop releases
the disposable texture entry, but `material.dispose()` is never called, so the
material object of the mesh still has `disposed = false` after disposal. -/
theorem claim5_cex :
    ((Ctrl.disposeModelFn cexModel5).nodes.map
        (fun c => c.material.map Material.disposed) = [some false]) ∧
    ((Ctrl.disposeModelFn cexModel5).nodes.map
        (fun c => c.material.map entriesReleasedCtrl) = [some true]) := by
  decide

/-- C5 as amended.  For every model passed to `disposeModel` and every
renderable mesh node of its graph, disposal releases the mesh's geometry
buffer and every disposable resource referenced by its material; the material
object itself is additionally released in the part_000 / script.js variant,
but not in the part_001 / part_002 variant (whose `disposeMaterial` leaves
every material's `disposed` flag untouched); finally the model's root is
removed from the scene in both variants. -/
theorem claim5_dispose_releases (m : Model) (scene : List Model) :
    fullyReleasedCtrl (Ctrl.disposeModelFn m) = true ∧
    (Ctrl.disposeModelFn m).nodes.map (fun c => c.material.map Material.disposed)
      = m.nodes.map (fun c => c.material.map Material.disposed) ∧
    fullyReleasedScript (Script.disposeModelFn m) = true ∧
    Ctrl.disposeModel (some m) scene
      = (scene.filter (fun x => x.mid != m.mid), some (Ctrl.disposeModelFn m)) ∧
    m.mid ∉ (scene.filter (fun x => x.mid != m.mid)).map Model.mid ∧
    Script.disposeModel (some m) scene
      = Except.ok (scene.filter (fun x => x.mid != m.mid), Script.disposeModelFn m) := by
  refine ⟨fullyReleasedCtrl_disposeModelFn m, ctrl_dispose_keeps_material_flag m,
          fullyReleasedScript_disposeModelFn m, rfl, ?_, rfl⟩
  simp [List.mem_map, List.mem_filter]

/-- Counterexample for C6.  The claim states that `disposeModel` is null-safe;
the script.js / part_000 variant (script.js lines 61-69) has no null guard, so
calling it on a null model dereferences null (`model.traverse`) and throws. -/
theorem claim6_cex : Script.disposeModel none [] = Except.error () := rfl

/-- C6 as amended.  `disposeModel` of the part_001 / part_002 variant is
null-safe (calling it on a null model is a no-op) and idempotent (a second
call on the same model leaves the state of the first call); the
script.js / part_000 variant is equally idempotent on non-null models, but it
has no null guard and throws a TypeError when called on a null model. -/
theorem claim6_dispose_nullsafe_idem (m : Model) (scene : List Model) :
    Ctrl.disposeModel none scene = (scene, none) ∧
    Ctrl.disposeModel (Ctrl.disposeModel (some m) scene).2
        (Ctrl.disposeModel (some m) scene).1
      = Ctrl.disposeModel (some m) scene ∧
    (∀ sc : List Model, Script.disposeModel none sc = Except.error ()) ∧
    Script.disposeModelFn (Script.disposeModelFn m) = Script.disposeModelFn m ∧
    (scene.filter (fun x => x.mid != m.mid)).filter (fun x => x.mid != m.mid)
      = scene.filter (fun x => x.mid != m.mid) := by
  refine ⟨rfl, ?_, fun _ => rfl, script_disposeModelFn_idem m, filter_idem _ _⟩
  simp [Ctrl.disposeModel, ctrl_disposeModelFn_mid, ctrl_disposeModelFn_idem,
        filter_idem]

section TraceLemmas

/-- The loader invocations of one fallback-flagged activation: exactly the one
call for its own URL, whatever the outcome. -/
lemma loadCallsOf_body_fb (normalize : Model → Except Unit Model)
    (env : String → Nat → Option Model) (url : String) (st : CtrlState)
    (cont : CtrlState → List Event) :
    loadCallsOf (Ctrl.ladmBody normalize env url true st cont) = [(url, true)] := by
  unfold Ctrl.ladmBody
  rcases hload : (V2.loadModel (env url) MAX_RETRIES).2 with _ | mm
  · rcases hcur : st.currentModel with _ | m <;>
      simp [hcur, hload, loadCallsOf, List.filterMap_append]
  · rcases hnorm : normalize mm with e | m2 <;>
      rcases hcur : st.currentModel with _ | m <;>
        simp [hcur, hload, hnorm, loadCallsOf, List.filterMap_append]

/-- The loader invocations of a full `loadAndDisplayModel` cycle: either just
the requested call, or (primary failure) the requested call followed by the
single fallback call. -/
lemma loadCallsOf_ladm_cases (normalize : Model → Except Unit Model)
    (env : String → Nat → Option Model) (url : String) (fb : Bool) (st : CtrlState) :
    loadCallsOf (Ctrl.loadAndDisplayModel normalize env url fb st) = [(url, fb)] ∨
    (fb = false ∧
      loadCallsOf (Ctrl.loadAndDisplayModel normalize env url fb st)
        = [(url, false), (FALLBACK_MODEL, true)]) := by
  cases fb
  · unfold Ctrl.loadAndDisplayModel Ctrl.ladmBody
    rcases hload : (V2.loadModel (env url) MAX_RETRIES).2 with _ | mm
    · refine Or.inr ⟨rfl, ?_⟩
      rcases hload2 : (V2.loadModel (env FALLBACK_MODEL) MAX_RETRIES).2 with _ | m3
      · rcases hcur : st.currentModel with _ | m <;>
          simp [hcur, hload, hload2, loadCallsOf, List.filterMap_append,
            runEvents, applyEvent]
      · rcases hnorm2 : normalize m3 with e | m4 <;>
          rcases hcur : st.currentModel with _ | m <;>
            simp [hcur, hload, hload2, hnorm2, loadCallsOf, List.filterMap_append,
              runEvents, applyEvent]
    · rcases hnorm : normalize mm with e | m2
      · refine Or.inr ⟨rfl, ?_⟩
        rcases hload2 : (V2.loadModel (env FALLBACK_MODEL) MAX_RETRIES).2 with _ | m3
        · rcases hcur : st.currentModel with _ | m <;>
            simp [hcur, hload, hnorm, hload2, loadCallsOf, List.filterMap_append,
              runEvents, applyEvent]
        · rcases hnorm2 : normalize m3 with e2 | m4 <;>
            rcases hcur : st.currentModel with _ | m <;>
              simp [hcur, hload, hnorm, hload2, hnorm2, loadCallsOf,
                List.filterMap_append, runEvents, applyEvent]
      · refine Or.inl ?_
        rcases hcur : st.currentModel with _ | m <;>
          simp [hcur, hload, hnorm, loadCallsOf, List.filterMap_append]
  · exact Or.inl (loadCallsOf_body_fb normalize env url st _)

end TraceLemmas

/-- C2.  In every execution of the part_001 / part_002 controller, at most one
fallback-flagged loader invocation occurs per load cycle; and when
`loadAndDisplayModel` is entered with the fallback flag set and its load
fails, the cycle performs exactly that one loader invocation — fallback
failures are never retried and never trigger another fallback. -/
theorem claim2_single_fallback (normalize : Model → Except Unit Model)
    (env : String → Nat → Option Model) (url : String) (fb : Bool) (st : CtrlState) :
    (loadCallsOf (Ctrl.loadAndDisplayModel normalize env url fb st)).countP
        (fun p => p.2) ≤ 1 ∧
    ((V2.loadModel (env url) MAX_RETRIES).2 = none →
      loadCallsOf (Ctrl.loadAndDisplayModel normalize env url true st)
        = [(url, true)]) := by
  constructor
  · rcases loadCallsOf_ladm_cases normalize env url fb st with h | ⟨_, h⟩ <;>
      rw [h] <;> cases fb <;> simp [List.countP_cons]
  · intro _
    exact loadCallsOf_body_fb normalize env url st _

/-- Witness for C2: with an environment in which every attempt fails, a
fallback-flagged cycle for a concrete URL performs exactly its own single
loader invocation. -/
theorem claim2_witness :
    loadCallsOf (Ctrl.loadAndDisplayModel V2.normalizeModel (fun _ _ => none) "m.glb" true
        { scene := [], currentModel := none, spinner := false, toasts := [] })
      = [("m.glb", true)] :=
  (claim2_single_fallback V2.normalizeModel (fun _ _ => none) "m.glb" true
    { scene := [], currentModel := none, spinner := false, toasts := [] }).2 rfl

/-- The first loader invocation of a script.js cycle is always the primary
attempt at the current `modelPath`. -/
lemma loadCallsOf_script_head (env : String → Nat → Option Model) (path : String)
    (st : CtrlState) :
    (loadCallsOf (Script.loadAndDisplayModel env path st)).head?
      = some (path, false) := by
  unfold Script.loadAndDisplayModel
  rcases hload : (Script.loadModelWithRetry (env path) MAX_RETRIES).2 with _ | mm
  · rcases hload2 : (Script.loadModelWithRetry (env Script.defaultModelPath) MAX_RETRIES).2
      with _ | m3 <;>
      rcases hcur : st.currentModel with _ | m <;>
        simp [hcur, hload, hload2, loadCallsOf, List.filterMap_append]
  · rcases hcur : st.currentModel with _ | m <;>
      simp [hcur, hload, loadCallsOf, List.filterMap_append]

/-- Counterexample for C4.  The claim states that when the model URL parameter
is absent at startup no primary load attempt is made; in the script.js variant
(cited at script.js lines 13-14) the absent `object` parameter merely selects
the built-in default path, which the startup then attempts as an ordinary
primary load — the trace contains a primary (non-fallback) loader invocation. -/
theorem claim4_cex :
    Event.loadCall Script.defaultModelPath false ∈
      Script.init none (fun _ _ => none)
        { scene := [], currentModel := none, spinner := false, toasts := [] } := by
  decide

/-- C4 as amended.  When the model URL parameter is absent at startup: in the
part_001 / part_002 variant the fallback asset is loaded directly with the
fallback flag set, no primary load attempt is made, and even if that load
fails no further loader invocation occurs; in the script.js variant the
built-in default path is attempted as a primary load instead; in the part_000
variant no load occurs at all and a persistent error notification is shown. -/
theorem claim4_missing_param_fallback (normalize : Model → Except Unit Model)
    (env : String → Nat → Option Model) (st : CtrlState) :
    Ctrl.init normalize none env st
      = Ctrl.loadAndDisplayModel normalize env FALLBACK_MODEL true st
        ++ [Event.animStart] ∧
    loadCallsOf (Ctrl.loadAndDisplayModel normalize env FALLBACK_MODEL true st)
      = [(FALLBACK_MODEL, true)] ∧
    (loadCallsOf (Script.init none env st)).head?
      = some (Script.defaultModelPath, false) ∧
    loadCallsOf (V0.init none env st) = [] ∧
    (toastsOf (V0.init none env st)).map (fun t => (t.ttype, t.persistent))
      = [("error", true)] := by
  refine ⟨rfl, loadCallsOf_body_fb normalize env FALLBACK_MODEL st _, ?_, ?_, ?_⟩
  · have h : loadCallsOf (Script.init none env st)
        = loadCallsOf (Script.loadAndDisplayModel env Script.defaultModelPath st) := by
      simp [Script.init, Script.modelPathInit, loadCallsOf, List.filterMap_append]
    rw [h]
    exact loadCallsOf_script_head env Script.defaultModelPath st
  · rfl
  · rfl

/-- The coupling invariant of the controller: the models among the scene
children are exactly the content of the `currentModel` slot (the scene holds
the current model when one is owned and no model otherwise).  It holds at
startup (empty scene, empty slot) and is preserved by every controller
action. -/
def SceneInv (st : CtrlState) : Prop :=
  st.scene = st.currentModel.toList

lemma sceneInv_length (st : CtrlState) (h : SceneInv st) : st.scene.length ≤ 1 := by
  rw [SceneInv] at h
  rcases hcur : st.currentModel with _ | m <;> simp [h, hcur]

lemma statesOf_append_mem (st : CtrlState) (l1 l2 : List Event) (s : CtrlState) :
    s ∈ statesOf st (l1 ++ l2) →
      s ∈ statesOf st l1 ∨ s ∈ statesOf (runEvents st l1) l2 := by
  induction l1 generalizing st with
  | nil => intro h; right; simpa [runEvents] using h
  | cons e es ih =>
    intro h
    simp only [List.cons_append, statesOf, List.mem_cons] at h
    rcases h with rfl | h
    · left; simp [statesOf]
    · rcases ih (applyEvent st e) h with h2 | h2
      · left; simp [statesOf, h2]
      · right; simpa [runEvents] using h2



/-- Every state passed through by one activation of the part_001 / part_002
controller body satisfies the coupling invariant, provided the continuation
(the fallback re-entry) preserves it from any invariant state. -/
lemma sceneInv_states_body (normalize : Model → Except Unit Model)
    (env : String → Nat → Option Model) (url : String) (fb : Bool)
    (st : CtrlState) (cont : CtrlState → List Event)
    (hc : ∀ st2, SceneInv st2 → ∀ s ∈ statesOf st2 (cont st2), SceneInv s)
    (hInv : SceneInv st) :
    ∀ s ∈ statesOf st (Ctrl.ladmBody normalize env url fb st cont), SceneInv s := by
  have hsc : st.scene = st.currentModel.toList := hInv
  unfold Ctrl.ladmBody
  rcases hcur : st.currentModel with _ | m <;> rw [hcur] at hsc <;>
    rcases hload : (V2.loadModel (env url) MAX_RETRIES).2 with _ | mm
  · -- no current model, load failure
    cases fb
    · intro s hs
      simp only [hcur, hload, Bool.false_eq_true, if_false, List.cons_append,
        List.nil_append, List.append_assoc] at hs
      simp only [statesOf, List.mem_cons] at hs
      rcases hs with rfl | rfl | rfl | hs
      · exact hInv
      · simp [SceneInv, applyEvent, hsc, hcur]
      · simp [SceneInv, applyEvent, hsc, hcur]
      · exact hc _ (by simp [SceneInv, runEvents, applyEvent, hsc, hcur]) s hs
    · intro s hs
      simp only [hcur, hload, if_true, List.cons_append, List.nil_append,
        List.append_assoc, List.append_nil] at hs
      simp only [statesOf, List.mem_cons, List.not_mem_nil, or_false] at hs
      rcases hs with rfl | rfl | rfl
      · exact hInv
      · simp [SceneInv, applyEvent, hsc, hcur]
      · simp [SceneInv, applyEvent, hsc, hcur]
  · -- no current model, load success
    rcases hnorm : normalize mm with e | m2
    · cases fb
      · intro s hs
        simp only [hcur, hload, hnorm, Bool.false_eq_true, if_false, List.cons_append,
          List.nil_append, List.append_assoc] at hs
        simp only [statesOf, List.mem_cons] at hs
        rcases hs with rfl | rfl | rfl | hs
        · exact hInv
        · simp [SceneInv, applyEvent, hsc, hcur]
        · simp [SceneInv, applyEvent, hsc, hcur]
        · exact hc _ (by simp [SceneInv, runEvents, applyEvent, hsc, hcur]) s hs
      · intro s hs
        simp only [hcur, hload, hnorm, if_true, List.cons_append, List.nil_append,
          List.append_assoc, List.append_nil] at hs
        simp only [statesOf, List.mem_cons, List.not_mem_nil, or_false] at hs
        rcases hs with rfl | rfl | rfl
        · exact hInv
        · simp [SceneInv, applyEvent, hsc, hcur]
        · simp [SceneInv, applyEvent, hsc, hcur]
    · cases fb
      · intro s hs
        simp only [hcur, hload, hnorm, Bool.false_eq_true, if_false, List.cons_append,
          List.nil_append, List.append_assoc] at hs
        simp only [statesOf, List.mem_cons, List.not_mem_nil, or_false] at hs
        rcases hs with rfl | rfl | rfl | rfl | rfl
        · exact hInv
        · simp [SceneInv, applyEvent, hsc, hcur]
        · simp [SceneInv, applyEvent, hsc, hcur]
        · simp [SceneInv, applyEvent, hsc, hcur]
        · simp [SceneInv, applyEvent, hsc, hcur]
      · intro s hs
        simp only [hcur, hload, hnorm, if_true, List.cons_append, List.nil_append,
          List.append_assoc, List.append_nil] at hs
        simp only [statesOf, List.mem_cons, List.not_mem_nil, or_false] at hs
        rcases hs with rfl | rfl | rfl | rfl
        · exact hInv
        · simp [SceneInv, applyEvent, hsc, hcur]
        · simp [SceneInv, applyEvent, hsc, hcur]
        · simp [SceneInv, applyEvent, hsc, hcur]
  · -- current model present, load failure
    cases fb
    · intro s hs
      simp only [hcur, hload, Bool.false_eq_true, if_false, List.cons_append,
        List.nil_append, List.append_assoc] at hs
      simp only [statesOf, List.mem_cons] at hs
      rcases hs with rfl | rfl | rfl | rfl | hs
      · exact hInv
      · simp [SceneInv, applyEvent, hsc, List.filter, ctrl_disposeModelFn_mid]
      · simp [SceneInv, applyEvent, hsc, List.filter, ctrl_disposeModelFn_mid]
      · simp [SceneInv, applyEvent, hsc, List.filter, ctrl_disposeModelFn_mid]
      · exact hc _ (by simp [SceneInv, runEvents, applyEvent, hsc, List.filter,
          ctrl_disposeModelFn_mid]) s hs
    · intro s hs
      simp only [hcur, hload, if_true, List.cons_append, List.nil_append,
        List.append_assoc, List.append_nil] at hs
      simp only [statesOf, List.mem_cons, List.not_mem_nil, or_false] at hs
      rcases hs with rfl | rfl | rfl | rfl
      · exact hInv
      · simp [SceneInv, applyEvent, hsc, List.filter, ctrl_disposeModelFn_mid]
      · simp [SceneInv, applyEvent, hsc, List.filter, ctrl_disposeModelFn_mid]
      · simp [SceneInv, applyEvent, hsc, List.filter, ctrl_disposeModelFn_mid]
  · -- current model present, load success
    rcases hnorm : normalize mm with e | m2
    · cases fb
      · intro s hs
        simp only [hcur, hload, hnorm, Bool.false_eq_true, if_false, List.cons_append,
          List.nil_append, List.append_assoc] at hs
        simp only [statesOf, List.mem_cons] at hs
        rcases hs with rfl | rfl | rfl | rfl | hs
        · exact hInv
        · simp [SceneInv, applyEvent, hsc, List.filter, ctrl_disposeModelFn_mid]
        · simp [SceneInv, applyEvent, hsc, List.filter, ctrl_disposeModelFn_mid]
        · simp [SceneInv, applyEvent, hsc, List.filter, ctrl_disposeModelFn_mid]
        · exact hc _ (by simp [SceneInv, runEvents, applyEvent, hsc, List.filter,
            ctrl_disposeModelFn_mid]) s hs
      · intro s hs
        simp only [hcur, hload, hnorm, if_true, List.cons_append, List.nil_append,
          List.append_assoc, List.append_nil] at hs
        simp only [statesOf, List.mem_cons, List.not_mem_nil, or_false] at hs
        rcases hs with rfl | rfl | rfl | rfl
        · exact hInv
        · simp [SceneInv, applyEvent, hsc, List.filter, ctrl_disposeModelFn_mid]
        · simp [SceneInv, applyEvent, hsc, List.filter, ctrl_disposeModelFn_mid]
        · simp [SceneInv, applyEvent, hsc, List.filter, ctrl_disposeModelFn_mid]
    · cases fb
      · intro s hs
        simp only [hcur, hload, hnorm, Bool.false_eq_true, if_false, List.cons_append,
          List.nil_append, List.append_assoc] at hs
        simp only [statesOf, List.mem_cons, List.not_mem_nil, or_false] at hs
        rcases hs with rfl | rfl | rfl | rfl | rfl | rfl
        · exact hInv
        · simp [SceneInv, applyEvent, hsc, List.filter, ctrl_disposeModelFn_mid]
        · simp [SceneInv, applyEvent, hsc, List.filter, ctrl_disposeModelFn_mid]
        · simp [SceneInv, applyEvent, hsc, List.filter, ctrl_disposeModelFn_mid]
        · simp [SceneInv, applyEvent, hsc, List.filter, ctrl_disposeModelFn_mid]
        · simp [SceneInv, applyEvent, hsc, List.filter, ctrl_disposeModelFn_mid]
      · intro s hs
        simp only [hcur, hload, hnorm, if_true, List.cons_append, List.nil_append,
          List.append_assoc, List.append_nil] at hs
        simp only [statesOf, List.mem_cons, List.not_mem_nil, or_false] at hs
        rcases hs with rfl | rfl | rfl | rfl | rfl
        · exact hInv
        · simp [SceneInv, applyEvent, hsc, List.filter, ctrl_disposeModelFn_mid]
        · simp [SceneInv, applyEvent, hsc, List.filter, ctrl_disposeModelFn_mid]
        · simp [SceneInv, applyEvent, hsc, List.filter, ctrl_disposeModelFn_mid]
        · simp [SceneInv, applyEvent, hsc, List.filter, ctrl_disposeModelFn_mid]

/-- Every state passed through by a full `loadAndDisplayModel` cycle of
part_001 / part_002 (fallback re-entry included) satisfies the coupling
invariant. -/
lemma sceneInv_states_ladm (normalize : Model → Except Unit Model)
    (env : String → Nat → Option Model) (url : String) (fb : Bool)
    (st : CtrlState) (hInv : SceneInv st) :
    ∀ s ∈ statesOf st (Ctrl.loadAndDisplayModel normalize env url fb st),
      SceneInv s := by
  unfold Ctrl.loadAndDisplayModel
  apply sceneInv_states_body
  · intro st2 h2
    apply sceneInv_states_body
    · intro st3 h3 s hs
      simp only [statesOf, List.mem_cons, List.not_mem_nil, or_false] at hs
      subst hs
      exact h3
    · exact h2
  · exact hInv

/-- Every state passed through by a script.js `loadAndDisplayModel` cycle
satisfies the coupling invariant. -/
lemma sceneInv_states_script (env : String → Nat → Option Model) (path : String)
    (st : CtrlState) (hInv : SceneInv st) :
    ∀ s ∈ statesOf st (Script.loadAndDisplayModel env path st), SceneInv s := by
  have hsc : st.scene = st.currentModel.toList := hInv
  unfold Script.loadAndDisplayModel
  rcases hcur : st.currentModel with _ | m <;> rw [hcur] at hsc <;>
    rcases hload : (Script.loadModelWithRetry (env path) MAX_RETRIES).2 with _ | mm
  · -- no current model, primary failure: fallback substitution runs
    rcases hload2 : (Script.loadModelWithRetry (env Script.defaultModelPath)
        MAX_RETRIES).2 with _ | m3
    · intro s hs
      simp only [hcur, hload, hload2, List.cons_append, List.nil_append,
        List.append_assoc] at hs
      simp only [statesOf, List.mem_cons, List.not_mem_nil, or_false] at hs
      rcases hs with rfl | rfl | rfl | rfl | rfl | rfl
      · exact hInv
      all_goals simp [SceneInv, applyEvent, hsc, hcur]
    · intro s hs
      simp only [hcur, hload, hload2, List.cons_append, List.nil_append,
        List.append_assoc] at hs
      simp only [statesOf, List.mem_cons, List.not_mem_nil, or_false] at hs
      rcases hs with rfl | rfl | rfl | rfl | rfl | rfl | rfl
      · exact hInv
      all_goals simp [SceneInv, applyEvent, hsc, hcur]
  · -- no current model, primary success
    intro s hs
    simp only [hcur, hload, List.cons_append, List.nil_append,
      List.append_assoc] at hs
    simp only [statesOf, List.mem_cons, List.not_mem_nil, or_false] at hs
    rcases hs with rfl | rfl | rfl | rfl | rfl | rfl
    · exact hInv
    all_goals simp [SceneInv, applyEvent, hsc, hcur]
  · -- current model present, primary failure
    rcases hload2 : (Script.loadModelWithRetry (env Script.defaultModelPath)
        MAX_RETRIES).2 with _ | m3
    · intro s hs
      simp only [hcur, hload, hload2, List.cons_append, List.nil_append,
        List.append_assoc] at hs
      simp only [statesOf, List.mem_cons, List.not_mem_nil, or_false] at hs
      rcases hs with rfl | rfl | rfl | rfl | rfl | rfl | rfl
      · exact hInv
      all_goals simp [SceneInv, applyEvent, hsc, List.filter, script_disposeModelFn_mid]
    · intro s hs
      simp only [hcur, hload, hload2, List.cons_append, List.nil_append,
        List.append_assoc] at hs
      simp only [statesOf, List.mem_cons, List.not_mem_nil, or_false] at hs
      rcases hs with rfl | rfl | rfl | rfl | rfl | rfl | rfl | rfl
      · exact hInv
      all_goals simp [SceneInv, applyEvent, hsc, List.filter, script_disposeModelFn_mid]
  · -- current model present, primary success
    intro s hs
    simp only [hcur, hload, List.cons_append, List.nil_append,
      List.append_assoc] at hs
    simp only [statesOf, List.mem_cons, List.not_mem_nil, or_false] at hs
    rcases hs with rfl | rfl | rfl | rfl | rfl | rfl | rfl
    · exact hInv
    all_goals simp [SceneInv, applyEvent, hsc, List.filter, script_disposeModelFn_mid]

/-- When a model is displayed at entry, the part_001 / part_002 cycle starts
with its disposal, before any loader invocation. -/
lemma ladm_head_dispose (normalize : Model → Except Unit Model)
    (env : String → Nat → Option Model) (url : String) (fb : Bool)
    (st : CtrlState) (m : Model) (hcur : st.currentModel = some m) :
    ∃ rest, Ctrl.loadAndDisplayModel normalize env url fb st
      = Event.disposePrev (Ctrl.disposeModelFn m) :: rest := by
  unfold Ctrl.loadAndDisplayModel Ctrl.ladmBody
  rcases hload : (V2.loadModel (env url) MAX_RETRIES).2 with _ | mm
  · simp only [hcur, hload, List.cons_append, List.nil_append, List.append_assoc]
    exact ⟨_, rfl⟩
  · rcases hnorm : normalize mm with e | m2 <;>
      simp only [hcur, hload, hnorm, List.cons_append, List.nil_append,
        List.append_assoc] <;>
      exact ⟨_, rfl⟩

/-- When a model is displayed at entry, the script.js cycle starts with its
disposal, before any loader invocation. -/
lemma script_head_dispose (env : String → Nat → Option Model) (path : String)
    (st : CtrlState) (m : Model) (hcur : st.currentModel = some m) :
    ∃ rest, Script.loadAndDisplayModel env path st
      = Event.disposePrev (Script.disposeModelFn m) :: rest := by
  unfold Script.loadAndDisplayModel
  rcases hload : (Script.loadModelWithRetry (env path) MAX_RETRIES).2 with _ | mm
  · rcases hload2 : (Script.loadModelWithRetry (env Script.defaultModelPath)
        MAX_RETRIES).2 with _ | m3 <;>
      simp only [hcur, hload, hload2, List.cons_append, List.nil_append,
        List.append_assoc] <;>
      exact ⟨_, rfl⟩
  · simp only [hcur, hload, List.cons_append, List.nil_append, List.append_assoc]
    exact ⟨_, rfl⟩

/-- C3.  Exclusive ownership: whenever a displayed model exists at entry to
`loadAndDisplayModel`, the very first action of the cycle disposes it —
geometry and material resources released, root removed from the scene, and the
current-model slot cleared — before any loader invocation; and every state the
cycle passes through holds at most one model in the scene.  Both for the
part_001 / part_002 controller and for the script.js controller. -/
theorem claim3_exclusive_ownership (normalize : Model → Except Unit Model)
    (env : String → Nat → Option Model) (url : String) (fb : Bool)
    (st : CtrlState) (m : Model)
    (hInv : SceneInv st) (hcur : st.currentModel = some m) :
    (∃ rest, Ctrl.loadAndDisplayModel normalize env url fb st
        = Event.disposePrev (Ctrl.disposeModelFn m) :: rest) ∧
    fullyReleasedCtrl (Ctrl.disposeModelFn m) = true ∧
    (applyEvent st (Event.disposePrev (Ctrl.disposeModelFn m))).currentModel
      = none ∧
    (applyEvent st (Event.disposePrev (Ctrl.disposeModelFn m))).scene = [] ∧
    (∀ s ∈ statesOf st (Ctrl.loadAndDisplayModel normalize env url fb st),
        s.scene.length ≤ 1) ∧
    (∃ rest, Script.loadAndDisplayModel env url st
        = Event.disposePrev (Script.disposeModelFn m) :: rest) ∧
    fullyReleasedScript (Script.disposeModelFn m) = true ∧
    (∀ s ∈ statesOf st (Script.loadAndDisplayModel env url st),
        s.scene.length ≤ 1) := by
  have hsc : st.scene = [m] := by rw [hInv, hcur]; rfl
  refine ⟨ladm_head_dispose normalize env url fb st m hcur,
          fullyReleasedCtrl_disposeModelFn m, rfl, ?_, ?_,
          script_head_dispose env url st m hcur,
          fullyReleasedScript_disposeModelFn m, ?_⟩
  · simp [applyEvent, hsc, List.filter, ctrl_disposeModelFn_mid]
  · intro s hs
    exact sceneInv_length s (sceneInv_states_ladm normalize env url fb st hInv s hs)
  · intro s hs
    exact sceneInv_length s (sceneInv_states_script env url st hInv s hs)

/-- A concrete displayed model for the C3 witness. -/
def modelW3 : Model :=
  { mid := 5, pos := (0, 0, 0),
    nodes := [{ isMesh := true, geometry := some { gid := 2, disposed := false },
                material := some cexMaterial5,
                castShadow := true, receiveShadow := true }] }

/-- A concrete state owning `modelW3`, satisfying the coupling invariant. -/
def stateW3 : CtrlState :=
  { scene := [modelW3], currentModel := some modelW3, spinner := false, toasts := [] }

/-- Witness for C3 at a concrete state with a displayed model and an
environment in which every load attempt fails. -/
theorem claim3_witness :
    fullyReleasedCtrl (Ctrl.disposeModelFn modelW3) = true ∧
    (applyEvent stateW3 (Event.disposePrev (Ctrl.disposeModelFn modelW3))).scene
      = [] ∧
    (∀ s ∈ statesOf stateW3
        (Ctrl.loadAndDisplayModel V2.normalizeModel (fun _ _ => none) "u" false
          stateW3),
      s.scene.length ≤ 1) :=
  (fun h => ⟨h.2.1, h.2.2.2.1, h.2.2.2.2.1⟩)
    (claim3_exclusive_ownership V2.normalizeModel (fun _ _ => none) "u" false
      stateW3 modelW3 rfl rfl)

lemma runEvents_append (st : CtrlState) (l1 l2 : List Event) :
    runEvents st (l1 ++ l2) = runEvents (runEvents st l1) l2 := by
  induction l1 generalizing st with
  | nil => simp [runEvents]
  | cons e es ih => simp [runEvents, ih]

/-- The part_001 / part_002 controller body never shows a toast (every toast
call in it is commented out), provided its continuation shows none. -/
lemma toastsOf_body (normalize : Model → Except Unit Model)
    (env : String → Nat → Option Model) (url : String) (fb : Bool)
    (st : CtrlState) (cont : CtrlState → List Event)
    (hcont : ∀ st2, toastsOf (cont st2) = []) :
    toastsOf (Ctrl.ladmBody normalize env url fb st cont) = [] := by
  have hcont2 : ∀ st2, List.filterMap
      (fun e => match e with | Event.toast t => some t | _ => none) (cont st2)
      = [] := hcont
  unfold Ctrl.ladmBody
  rcases hload : (V2.loadModel (env url) MAX_RETRIES).2 with _ | mm
  · cases fb <;> rcases hcur : st.currentModel with _ | m <;>
      simp [hcur, hload, toastsOf, List.filterMap_append, hcont2]
  · rcases hnorm : normalize mm with e | m2 <;> cases fb <;>
      rcases hcur : st.currentModel with _ | m <;>
        simp [hcur, hload, hnorm, toastsOf, List.filterMap_append, hcont2]

/-- A part_001 / part_002 load cycle never shows any toast. -/
lemma toastsOf_ladm (normalize : Model → Except Unit Model)
    (env : String → Nat → Option Model) (url : String) (fb : Bool)
    (st : CtrlState) :
    toastsOf (Ctrl.loadAndDisplayModel normalize env url fb st) = [] := by
  unfold Ctrl.loadAndDisplayModel
  apply toastsOf_body
  intro st2
  apply toastsOf_body
  intro st3
  simp [toastsOf]

/-- Counterexample for C7.  The claim states that when both the primary and
the fallback load exhaust their retries a persistent dismissible error
notification is shown; in the part_002 (and part_001) controller every toast
call is commented out, so a run in which both loads fail shows no
notification at all. -/
theorem claim7_cex :
    toastsOf (Ctrl.loadAndDisplayModel V2.normalizeModel (fun _ _ => none) "m.glb"
        false { scene := [], currentModel := none, spinner := false, toasts := [] })
      = [] := by
  decide

/-- C7 as amended.  When both the primary and the single fallback load exhaust
their retry budgets, the load cycle ends in the terminal failed state — no
model owned, no model in the scene, spinner hidden — and the startup still
reaches the animation loop (the failure is never fatal to the process).  In
the script.js variant a persistent dismissible error notification is shown;
in the part_001 / part_002 variant no notification is shown (the toast calls
are commented out). -/
theorem claim7_double_failure (normalize : Model → Except Unit Model)
    (env : String → Nat → Option Model) (url : String) (st : CtrlState)
    (hInv : SceneInv st)
    (h1 : (V2.loadModel (env url) MAX_RETRIES).2 = none)
    (h2 : (V2.loadModel (env FALLBACK_MODEL) MAX_RETRIES).2 = none)
    (h4 : (V2.loadModel (env Script.defaultModelPath) MAX_RETRIES).2 = none) :
    runEvents st (Ctrl.loadAndDisplayModel normalize env url false st)
      = { scene := [], currentModel := none, spinner := false,
          toasts := st.toasts } ∧
    toastsOf (Ctrl.loadAndDisplayModel normalize env url false st) = [] ∧
    runEvents st (Script.loadAndDisplayModel env url st)
      = { scene := [], currentModel := none, spinner := false,
          toasts := st.toasts ++ [{ message := "Critical error loading model.",
                                    ttype := "error", persistent := true }] } ∧
    toastsOf (Script.loadAndDisplayModel env url st)
      = [{ message := "Critical error loading model.",
           ttype := "error", persistent := true }] ∧
    (Ctrl.init normalize (some url) env st).getLast? = some Event.animStart ∧
    (Script.init (some url) env st).getLast? = some Event.animStart := by
  have hsc : st.scene = st.currentModel.toList := hInv
  have h3 : (Script.loadModelWithRetry (env url) MAX_RETRIES).2 = none := h1
  have h5 : (Script.loadModelWithRetry (env Script.defaultModelPath)
      MAX_RETRIES).2 = none := h4
  refine ⟨?_, toastsOf_ladm normalize env url false st, ?_, ?_, ?_, ?_⟩
  · unfold Ctrl.loadAndDisplayModel Ctrl.ladmBody
    rcases hcur : st.currentModel with _ | m <;> rw [hcur] at hsc <;>
      simp [hcur, h1, h2, runEvents, applyEvent, hsc, List.filter,
        ctrl_disposeModelFn_mid]
  · unfold Script.loadAndDisplayModel
    rcases hcur : st.currentModel with _ | m <;> rw [hcur] at hsc <;>
      simp [hcur, h3, h5, runEvents, applyEvent, hsc, List.filter,
        script_disposeModelFn_mid]
  · unfold Script.loadAndDisplayModel
    rcases hcur : st.currentModel with _ | m <;>
      simp [hcur, h3, h5, toastsOf, List.filterMap_append]
  · unfold Ctrl.init
    split <;> simp
  · unfold Script.init
    simp

/-- The startup state: empty scene, empty slot, spinner hidden, no toasts. -/
def emptyState : CtrlState :=
  { scene := [], currentModel := none, spinner := false, toasts := [] }

/-- Witness for C7 at a concrete always-failing environment from the startup
state: the part_002 cycle ends with nothing owned and no toast, the script.js
cycle shows the persistent critical-error toast. -/
theorem claim7_witness :
    runEvents emptyState
        (Ctrl.loadAndDisplayModel V2.normalizeModel (fun _ _ => none) "u" false
          emptyState)
      = { scene := [], currentModel := none, spinner := false, toasts := [] } ∧
    toastsOf (Script.loadAndDisplayModel (fun _ _ => none) "u" emptyState)
      = [{ message := "Critical error loading model.", ttype := "error",
           persistent := true }] :=
  (fun h => ⟨h.1, h.2.2.2.1⟩)
    (claim7_double_failure V2.normalizeModel (fun _ _ => none) "u" emptyState
      rfl rfl rfl rfl)

lemma mapExcept_mem (f : ChildNode → Except Unit ChildNode) :
    ∀ (l l2 : List ChildNode), mapExcept f l = Except.ok l2 →
      ∀ x ∈ l2, ∃ y ∈ l, f y = Except.ok x := by
  intro l
  induction l with
  | nil =>
    intro l2 h x hx
    simp only [mapExcept, Except.ok.injEq] at h
    subst h
    simp at hx
  | cons c cs ih =>
    intro l2 h x hx
    unfold mapExcept at h
    rcases hfc : f c with e | c2 <;> rw [hfc] at h
    · exact absurd h (by simp)
    · rcases hrest : mapExcept f cs with e | cs2 <;> rw [hrest] at h
      · exact absurd h (by simp)
      · simp only [Except.ok.injEq] at h
        subst h
        rcases List.mem_cons.mp hx with rfl | hx2
        · exact ⟨c, List.mem_cons_self c cs, hfc⟩
        · obtain ⟨y, hy, hfy⟩ := ih cs2 hrest x hx2
          exact ⟨y, List.mem_cons_of_mem c hy, hfy⟩

lemma normChildV2_standard (c c2 : ChildNode)
    (h : V2.normalizeChild c = Except.ok c2) :
    c2.isMesh = true → ∃ mat, c2.material = some mat ∧ mat.standard = true := by
  unfold V2.normalizeChild at h
  by_cases hm : c.isMesh
  · rw [if_pos hm] at h
    rcases hmat : c.material with _ | mat <;> rw [hmat] at h
    · exact absurd h (by simp)
    · simp only [Except.ok.injEq] at h
      subst h
      intro _
      refine ⟨_, rfl, ?_⟩
      by_cases hstd : mat.standard <;> simp [hstd, newStandardMaterial]
  · rw [if_neg hm] at h
    simp only [Except.ok.injEq] at h
    subst h
    intro hmesh
    exact absurd hmesh hm

lemma normModelV2_props (m m2 : Model) (h : V2.normalizeModel m = Except.ok m2) :
    m2.pos = (0, 0, 0) ∧
    ∀ c ∈ m2.nodes, c.isMesh = true →
      ∃ mat, c.material = some mat ∧ mat.standard = true := by
  unfold V2.normalizeModel at h
  rcases hmap : mapExcept V2.normalizeChild m.nodes with e | nodes2 <;> rw [hmap] at h
  · exact absurd h (by simp)
  · simp only [Except.ok.injEq] at h
    subst h
    refine ⟨rfl, ?_⟩
    intro c hc hmesh
    obtain ⟨y, _, hfy⟩ := mapExcept_mem V2.normalizeChild m.nodes nodes2 hmap c hc
    exact normChildV2_standard y c hfy hmesh

lemma forceSolidStep_standard (fo : Bool) (m : Material) :
    (V1.forceSolidStep fo m).standard = m.standard := by
  unfold V1.forceSolidStep
  split <;> rfl

lemma forceSolidStep_wireframe (fo : Bool) (m : Material) :
    (V1.forceSolidStep fo m).wireframe = m.wireframe := by
  unfold V1.forceSolidStep
  split <;> rfl

lemma wireframeStep_standard (fw : Bool) (m : Material) :
    (V1.wireframeStep fw m).standard = m.standard := by
  unfold V1.wireframeStep
  split <;> rfl

lemma wireframeStep_transparent (fw : Bool) (m : Material) :
    (V1.wireframeStep fw m).transparent = m.transparent := by
  unfold V1.wireframeStep
  split <;> rfl

lemma wireframeStep_transmission (fw : Bool) (m : Material) :
    (V1.wireframeStep fw m).transmission = m.transmission := by
  unfold V1.wireframeStep
  split <;> rfl

lemma wireframeStep_wireframe_on (m : Material) :
    (V1.wireframeStep true m).wireframe = true := by
  simp [V1.wireframeStep]

/-- With the force-opaque flag on, the FORCE_OPAQUE block leaves no material
transparent or positively transmissive. -/
lemma forceSolidStep_solid (m : Material) :
    (V1.forceSolidStep true m).transparent = false ∧
    (∀ t, (V1.forceSolidStep true m).transmission = some t → t ≤ 0) := by
  rcases htr : m.transmission with _ | t0
  · by_cases htp : m.transparent
    · refine ⟨by simp [V1.forceSolidStep, htr, htp], ?_⟩
      intro t ht
      simp [V1.forceSolidStep, htr, htp] at ht
    · refine ⟨by simp [V1.forceSolidStep, htr, htp], ?_⟩
      intro t ht
      simp [V1.forceSolidStep, htr, htp] at ht
  · by_cases htp : m.transparent
    · refine ⟨by simp [V1.forceSolidStep, htr, htp], ?_⟩
      intro t ht
      simp [V1.forceSolidStep, htr, htp] at ht
      exact le_of_eq ht.symm
    · by_cases ht0 : (0 : Rat) < t0
      · refine ⟨by simp [V1.forceSolidStep, htr, htp, ht0], ?_⟩
        intro t ht
        simp [V1.forceSolidStep, htr, htp, ht0] at ht
        exact le_of_eq ht.symm
      · refine ⟨by simp [V1.forceSolidStep, htr, htp, ht0], ?_⟩
        intro t ht
        simp [V1.forceSolidStep, htr, htp, ht0] at ht
        rw [ht] at ht0
        exact le_of_not_lt ht0

lemma normChildV1_props (fo fw : Bool) (c c2 : ChildNode)
    (h : V1.normalizeChild fo fw c = Except.ok c2) :
    c2.isMesh = true →
      ∃ mat, c2.material = some mat ∧ mat.standard = true ∧
        (fw = true → mat.wireframe = true) ∧
        (fo = true → mat.transparent = false ∧
          ∀ t, mat.transmission = some t → t ≤ 0) := by
  unfold V1.normalizeChild at h
  by_cases hm : c.isMesh
  · rw [if_pos hm] at h
    rcases hmat : c.material with _ | mat <;> rw [hmat] at h
    · exact absurd h (by simp)
    · simp only [Except.ok.injEq] at h
      subst h
      intro _
      refine ⟨_, rfl, ?_, ?_, ?_⟩
      · rw [wireframeStep_standard, forceSolidStep_standard]
        by_cases hstd : mat.standard <;> simp [hstd, newStandardMaterial]
      · intro hfw
        subst hfw
        exact wireframeStep_wireframe_on _
      · intro hfo
        subst hfo
        refine ⟨?_, ?_⟩
        · rw [wireframeStep_transparent]
          exact (forceSolidStep_solid _).1
        · intro t ht
          rw [wireframeStep_transmission] at ht
          exact (forceSolidStep_solid _).2 t ht
  · rw [if_neg hm] at h
    simp only [Except.ok.injEq] at h
    subst h
    intro hmesh
    exact absurd hmesh hm

lemma normModelV1_props (fo fw : Bool) (m m2 : Model)
    (h : V1.normalizeModel fo fw m = Except.ok m2) :
    m2.pos = (0, 0, 0) ∧
    ∀ c ∈ m2.nodes, c.isMesh = true →
      ∃ mat, c.material = some mat ∧ mat.standard = true ∧
        (fw = true → mat.wireframe = true) ∧
        (fo = true → mat.transparent = false ∧
          ∀ t, mat.transmission = some t → t ≤ 0) := by
  unfold V1.normalizeModel at h
  rcases hmap : mapExcept (V1.normalizeChild fo fw) m.nodes with e | nodes2 <;>
    rw [hmap] at h
  · exact absurd h (by simp)
  · simp only [Except.ok.injEq] at h
    subst h
    refine ⟨rfl, ?_⟩
    intro c hc hmesh
    obtain ⟨y, _, hfy⟩ := mapExcept_mem (V1.normalizeChild fo fw) m.nodes nodes2
      hmap c hc
    exact normChildV1_props fo fw y c hfy hmesh

/-- Every model installed by one body activation is an output of the
normalization, or comes from the continuation. -/
lemma mem_installs_body (normalize : Model → Except Unit Model)
    (env : String → Nat → Option Model) (url : String) (fb : Bool)
    (st : CtrlState) (cont : CtrlState → List Event) (m2 : Model)
    (h : m2 ∈ installsOf (Ctrl.ladmBody normalize env url fb st cont)) :
    (∃ m, normalize m = Except.ok m2) ∨ (∃ st2, m2 ∈ installsOf (cont st2)) := by
  unfold Ctrl.ladmBody at h
  rcases hload : (V2.loadModel (env url) MAX_RETRIES).2 with _ | mm <;>
    simp only [hload] at h
  · cases fb <;> rcases hcur : st.currentModel with _ | m <;>
      simp [hcur, installsOf, List.filterMap_append] at h <;>
      exact Or.inr ⟨_, by simpa [installsOf, List.mem_filterMap] using h⟩
  · rcases hnorm : normalize mm with e | m2' <;> simp only [hnorm] at h
    · cases fb <;> rcases hcur : st.currentModel with _ | m <;>
        simp [hcur, installsOf, List.filterMap_append] at h <;>
        exact Or.inr ⟨_, by simpa [installsOf, List.mem_filterMap] using h⟩
    · cases fb <;> rcases hcur : st.currentModel with _ | m <;>
        simp [hcur, installsOf, List.filterMap_append] at h <;>
        subst h <;>
        exact Or.inl ⟨mm, hnorm⟩

/-- Every model installed by a full part_001 / part_002 cycle is an output of
the normalization traversal. -/
lemma mem_installs_ladm (normalize : Model → Except Unit Model)
    (env : String → Nat → Option Model) (url : String) (fb : Bool)
    (st : CtrlState) (m2 : Model)
    (h : m2 ∈ installsOf (Ctrl.loadAndDisplayModel normalize env url fb st)) :
    ∃ m, normalize m = Except.ok m2 := by
  unfold Ctrl.loadAndDisplayModel at h
  rcases mem_installs_body normalize env url fb st _ m2 h with h2 | ⟨st2, h2⟩
  · exact h2
  · rcases mem_installs_body normalize env FALLBACK_MODEL true st2 _ m2 h2
      with h3 | ⟨st3, h3⟩
    · exact h3
    · simp [installsOf] at h3

/-- A concrete loaded model with a non-standard material, positioned away from
the origin. -/
def modelC8 : Model :=
  { mid := 9, pos := (1, 2, 3),
    nodes := [{ isMesh := true, geometry := some { gid := 4, disposed := false },
                material := some { cexMaterial5 with standard := false },
                castShadow := true, receiveShadow := true }] }

/-- Counterexample for C8.  The claim states that on a successful load every
mesh of the installed scene has a MeshStandardMaterial and the root is
positioned at the origin; the script.js variant (cited at script.js lines
163-171) installs the loaded scene unchanged: the installed model keeps its
non-standard material and its position (1, 2, 3). -/
theorem claim8_cex :
    (runEvents emptyState
        (Script.loadAndDisplayModel (fun _ _ => some modelC8) "u" emptyState)).currentModel
      = some modelC8 ∧
    modelC8.pos = (1, 2, 3) ∧
    modelC8.nodes.map (fun c => c.material.map Material.standard)
      = [some false] := by
  exact ⟨rfl, rfl, by decide⟩

/-- C8 as amended.  In the part_001 / part_002 variant, when the load succeeds
and the normalization traversal completes, the cycle ends installed: the
normalized model is the current model and the only scene child, the spinner is
hidden, every mesh of it carries a MeshStandardMaterial and its root sits at
the origin — and every model any part_001 / part_002 cycle ever installs has
these properties.  The script.js variant instead installs the loaded scene
unchanged (no normalization, no position reset). -/
theorem claim8_success_install (env : String → Nat → Option Model) (url : String)
    (fb : Bool) (st : CtrlState) (m m2 : Model)
    (hInv : SceneInv st)
    (hload : (V2.loadModel (env url) MAX_RETRIES).2 = some m)
    (hnorm : V2.normalizeModel m = Except.ok m2) :
    runEvents st (Ctrl.loadAndDisplayModel V2.normalizeModel env url fb st)
      = { scene := [m2], currentModel := some m2, spinner := false,
          toasts := st.toasts } ∧
    m2.pos = (0, 0, 0) ∧
    (∀ c ∈ m2.nodes, c.isMesh = true →
      ∃ mat, c.material = some mat ∧ mat.standard = true) ∧
    (∀ env2 url2 fb2 st2 mm,
      mm ∈ installsOf (Ctrl.loadAndDisplayModel V2.normalizeModel env2 url2 fb2 st2) →
      mm.pos = (0, 0, 0) ∧ ∀ c ∈ mm.nodes, c.isMesh = true →
        ∃ mat, c.material = some mat ∧ mat.standard = true) ∧
    (∀ fo fw env2 url2 fb2 st2 mm,
      mm ∈ installsOf (Ctrl.loadAndDisplayModel (V1.normalizeModel fo fw) env2 url2
        fb2 st2) →
      mm.pos = (0, 0, 0) ∧ ∀ c ∈ mm.nodes, c.isMesh = true →
        ∃ mat, c.material = some mat ∧ mat.standard = true) ∧
    (∀ env2 url2 st2 m3, SceneInv st2 →
      (Script.loadModelWithRetry (env2 url2) MAX_RETRIES).2 = some m3 →
      runEvents st2 (Script.loadAndDisplayModel env2 url2 st2)
        = { scene := [m3], currentModel := some m3, spinner := false,
            toasts := st2.toasts
              ++ [{ message := "Model loaded successfully.",
                    ttype := "success", persistent := true }] }) := by
  have hsc : st.scene = st.currentModel.toList := hInv
  refine ⟨?_, (normModelV2_props m m2 hnorm).1, (normModelV2_props m m2 hnorm).2,
          ?_, ?_, ?_⟩
  · unfold Ctrl.loadAndDisplayModel Ctrl.ladmBody
    cases fb <;> rcases hcur : st.currentModel with _ | mc <;> rw [hcur] at hsc <;>
      simp [hcur, hload, hnorm, runEvents, applyEvent, hsc, List.filter,
        ctrl_disposeModelFn_mid]
  · intro env2 url2 fb2 st2 mm hmem
    obtain ⟨mx, hmx⟩ := mem_installs_ladm V2.normalizeModel env2 url2 fb2 st2 mm hmem
    exact normModelV2_props mx mm hmx
  · intro fo fw env2 url2 fb2 st2 mm hmem
    obtain ⟨mx, hmx⟩ := mem_installs_ladm (V1.normalizeModel fo fw) env2 url2 fb2
      st2 mm hmem
    obtain ⟨hpos, hall⟩ := normModelV1_props fo fw mx mm hmx
    refine ⟨hpos, fun c hc hmesh => ?_⟩
    obtain ⟨mat, hmat, hstd, _, _⟩ := hall c hc hmesh
    exact ⟨mat, hmat, hstd⟩
  · intro env2 url2 st2 m3 hInv2 hload2
    have hsc2 : st2.scene = st2.currentModel.toList := hInv2
    unfold Script.loadAndDisplayModel
    rcases hcur2 : st2.currentModel with _ | mc <;> rw [hcur2] at hsc2 <;>
      simp [hcur2, hload2, runEvents, applyEvent, hsc2, List.filter,
        script_disposeModelFn_mid]

/-- A concrete loadable model with a non-standard material for the C8
witness. -/
def modelW8 : Model :=
  { mid := 11, pos := (4, 5, 6),
    nodes := [{ isMesh := true, geometry := some { gid := 6, disposed := false },
                material := some { cexMaterial5 with standard := false },
                castShadow := true, receiveShadow := true }] }

/-- The normalization output for `modelW8` (computed). -/
def modelW8n : Model :=
  match V2.normalizeModel modelW8 with
  | Except.ok x => x
  | Except.error _ => modelW8

/-- Witness for C8: from the startup state, a successful load of `modelW8`
ends with its normalized form installed as the only scene child, at the
origin. -/
theorem claim8_witness :
    runEvents emptyState
        (Ctrl.loadAndDisplayModel V2.normalizeModel (fun _ _ => some modelW8) "u"
          false emptyState)
      = { scene := [modelW8n], currentModel := some modelW8n, spinner := false,
          toasts := [] } ∧
    modelW8n.pos = (0, 0, 0) :=
  (fun h => ⟨h.1, h.2.1⟩)
    (claim8_success_install (fun _ _ => some modelW8) "u" false emptyState
      modelW8 modelW8n rfl rfl rfl)

/-- C9.  The force-opaque and force-wireframe display flags are computed once
from the URL parameters (`forceSolidFlag`, named FORCE_OPAQUE in the source,
and `FORCE_WIREFRAME`) and applied uniformly to every mesh of every model a
part_001 cycle installs, on primary and fallback loads alike: with
force-wireframe set every installed mesh material has wireframe enabled, and
with force-opaque set no installed mesh material remains transparent or
positively transmissive. -/
theorem claim9_display_flags (alphaMode wireParam : Option String)
    (env : String → Nat → Option Model) (url : String) (fb : Bool)
    (st : CtrlState) (m2 : Model)
    (hmem : m2 ∈ installsOf (Ctrl.loadAndDisplayModel
      (V1.normalizeModel (forceSolidFlag alphaMode) (FORCE_WIREFRAME wireParam))
      env url fb st)) :
    ∀ c ∈ m2.nodes, c.isMesh = true →
      ∃ mat, c.material = some mat ∧
        (FORCE_WIREFRAME wireParam = true → mat.wireframe = true) ∧
        (forceSolidFlag alphaMode = true → mat.transparent = false ∧
          ∀ t, mat.transmission = some t → t ≤ 0) := by
  obtain ⟨mx, hmx⟩ := mem_installs_ladm _ env url fb st m2 hmem
  obtain ⟨_, hall⟩ := normModelV1_props _ _ mx m2 hmx
  intro c hc hmesh
  obtain ⟨mat, hmat, _, hfw, hfo⟩ := hall c hc hmesh
  exact ⟨mat, hmat, hfw, hfo⟩

/-- A concrete loaded model with a transparent, transmissive standard
material. -/
def modelW9 : Model :=
  { mid := 13, pos := (0, 0, 0),
    nodes := [{ isMesh := true, geometry := some { gid := 7, disposed := false },
                material := some { standard := true, map := none,
                                   transparent := true, opacity := 1,
                                   transmission := some 1, alphaTest := 0,
                                   metalness := 0, roughness := 0,
                                   wireframe := false, needsUpdate := false,
                                   entries := [], disposed := false },
                castShadow := false, receiveShadow := false }] }

/-- The part_001 normalization output for `modelW9` with both display flags
on (computed). -/
def modelW9n : Model :=
  match V1.normalizeModel (forceSolidFlag (some "opaque"))
      (FORCE_WIREFRAME (some "on")) modelW9 with
  | Except.ok x => x
  | Except.error _ => modelW9

/-- The single (normalized) mesh node of `modelW9n`. -/
def childW9 : ChildNode :=
  match modelW9n.nodes with
  | c :: _ => c
  | [] => { isMesh := false, geometry := none, material := none,
            castShadow := false, receiveShadow := false }

/-- Witness for C9: with `alphaMode=opaque` and `wireframe=on`, the mesh of
the model installed from a successful load of `modelW9` has wireframe enabled
and is neither transparent nor transmissive. -/
theorem claim9_witness :
    childW9.isMesh = true ∧
    ∃ mat, childW9.material = some mat ∧
      (FORCE_WIREFRAME (some "on") = true → mat.wireframe = true) ∧
      (forceSolidFlag (some "opaque") = true → mat.transparent = false ∧
        ∀ t, mat.transmission = some t → t ≤ 0) :=
  ⟨rfl,
    claim9_display_flags (some "opaque") (some "on") (fun _ _ => some modelW9) "u"
      false emptyState modelW9n (by exact List.mem_singleton_self modelW9n)
      childW9 (by exact List.mem_singleton_self childW9) rfl⟩
